import Mathlib

/-!
Shallow embedding of the configuration resolver and reviews accessor of
`src/setup/index.ts` (the config-loader module: `loadConfig`, `loadReviews`,
`getReviewsForPage`).

Modelling conventions:
* A raw field that may be absent or `null` is an `Option`; `none` covers both.
* JavaScript `a || b` on strings is `jsOr` (an empty string is falsy),
  on numbers `jsOrInt` (zero is falsy), on objects/arrays `Option.orElse`
  (any object, even `{}` or `[]`, is truthy), and `a ?? b` is `Option.getD`.
* A JS `Array.prototype.map` whose callback dereferences the element throws a
  `TypeError` on a `null` element; such maps are embedded as `mapNonNull`,
  which returns `none` when the list holds a `none` element.  `loadConfig`
  therefore returns `Option SiteConfig`, with `none` standing for a thrown
  exception.
* `String.prototype.replace(/\D/g, '')` is `stripNonDigits`.
* `Array.prototype.slice(0, n)` is `jsTake` (negative `n` counts from the end).
* `new Date().getFullYear()` is passed in as the `currentYear` argument.
-/

namespace Setup

/-- JS `a || b` where `a` is a possibly-absent string: an empty string is
falsy, so it falls through to the default. -/
def jsOr (o : Option String) (d : String) : String :=
  match o with
  | some s => if s = "" then d else s
  | none => d

/-- JS `a || b` where `a` is a possibly-absent number: `0` is falsy. -/
def jsOrInt (o : Option Int) (d : Int) : Int :=
  match o with
  | some n => if n = 0 then d else n
  | none => d

/-- JS `arr.map (e => ...e.field...)`: dereferencing a `null` element throws,
embedded as `none`. -/
def mapNonNull (f : α → β) : List (Option α) → Option (List β)
  | [] => some []
  | none :: _ => none
  | some a :: rest => (mapNonNull f rest).map (fun l => f a :: l)

/-- All elements of the list are non-null. -/
def allNonNull (l : List (Option α)) : Bool :=
  l.all Option.isSome

/-- JS `s.replace(/\D/g, '')`: keep only the decimal-digit characters. -/
def stripNonDigits (s : String) : String :=
  String.mk (s.data.filter Char.isDigit)

/-- JS `arr.slice(0, ed)`: for `ed ≥ 0` take the first `ed` elements; a
negative `ed` counts back from the end. -/
def jsTake (ed : Int) (l : List α) : List α :=
  if ed < 0 then l.take (l.length - min l.length ed.natAbs) else l.take ed.toNat

/-- Spec-side formalisation of a precedence chain over string sources:
first populated (present and non-empty) candidate wins, else the default. -/
def firstNonempty : List (Option String) → String → String
  | [], d => d
  | o :: rest, d =>
    match o with
    | some s => if s = "" then firstNonempty rest d else s
    | none => firstNonempty rest d

-- ===========================================================================
-- Raw (untrusted) configuration tree, mirroring the optional-chained reads
-- of `loadConfig`.  Every field is optional; `none` = absent or null.
-- ===========================================================================

structure RawSite where
  name : Option String := none
  tagline : Option String := none
  description : Option String := none
  url : Option String := none
  default_og_image : Option String := none
  locale : Option String := none
  timezone : Option String := none
deriving DecidableEq

structure RawBusiness where
  name : Option String := none
  legal_name : Option String := none
  tagline : Option String := none
  description : Option String := none
  year_founded : Option Int := none
  industry : Option String := none
deriving DecidableEq

structure RawColors where
  primary : Option String := none
  primary_dark : Option String := none
  secondary : Option String := none
  accent : Option String := none
  text : Option String := none
  text_light : Option String := none
  background : Option String := none
  surface : Option String := none
deriving DecidableEq

structure RawFonts where
  heading : Option String := none
  body : Option String := none
deriving DecidableEq

structure RawLogo where
  text : Option String := none
  show_icon : Option Bool := none
deriving DecidableEq

structure RawBranding where
  colors : Option RawColors := none
  fonts : Option RawFonts := none
  style : Option String := none
  logo : Option RawLogo := none
deriving DecidableEq

structure RawTrust where
  show_years_in_business : Option Bool := none
  years_in_business : Option Int := none
  customers_served : Option String := none
  satisfaction_rate : Option String := none
  response_time : Option String := none
  certifications : Option (List (Option String)) := none
  awards : Option (List String) := none
  affiliations : Option (List String) := none
  guarantees : Option (List String) := none
deriving DecidableEq

structure RawCtaButton where
  text : Option String := none
  url : Option String := none
deriving DecidableEq

structure RawCta where
  primary : Option RawCtaButton := none
  secondary : Option RawCtaButton := none
  urgency : Option String := none
deriving DecidableEq

structure RawServiceItem where
  name : Option String := none
  description : Option String := none
  icon : Option String := none
  url : Option String := none
deriving DecidableEq

structure RawServices where
  enabled : Option Bool := none
  headline : Option String := none
  subheadline : Option String := none
  items : Option (List (Option RawServiceItem)) := none
deriving DecidableEq

structure RawValueItem where
  title : Option String := none
  description : Option String := none
  icon : Option String := none
deriving DecidableEq

structure RawValueProps where
  enabled : Option Bool := none
  headline : Option String := none
  items : Option (List (Option RawValueItem)) := none
deriving DecidableEq

structure RawFeatures where
  blog : Option Bool := none
  contact_form : Option Bool := none
  reviews : Option Bool := none
  services_section : Option Bool := none
  newsletter : Option Bool := none
  chat : Option Bool := none
  booking : Option Bool := none
deriving DecidableEq

structure RawSeo where
  title_template : Option String := none
  default_title : Option String := none
  default_description : Option String := none
  keywords : Option (List String) := none
deriving DecidableEq

structure RawLegal where
  copyright_holder : Option String := none
  privacy_email : Option String := none
  terms_last_updated : Option String := none
  privacy_last_updated : Option String := none
deriving DecidableEq

structure RawAddress where
  street : Option String := none
  suite : Option String := none
  city : Option String := none
  state : Option String := none
  zip : Option String := none
  country : Option String := none
deriving DecidableEq

structure RawContact where
  email : Option String := none
  phone : Option String := none
  phone_local : Option String := none
  phone_raw : Option String := none
  address : Option RawAddress := none
  service_area : Option String := none
deriving DecidableEq

structure RawSocial where
  facebook : Option String := none
  instagram : Option String := none
  twitter : Option String := none
  linkedin : Option String := none
  youtube : Option String := none
  tiktok : Option String := none
  pinterest : Option String := none
  yelp : Option String := none
  google_business : Option String := none
  nextdoor : Option String := none
  bbb : Option String := none
  whatsapp : Option String := none
deriving DecidableEq

/-- The weekday-string sub-object: either the `hours.detailed` shape or the
weekday fields of the legacy flat `hours` object. -/
structure RawWeekdays where
  monday : Option String := none
  tuesday : Option String := none
  wednesday : Option String := none
  thursday : Option String := none
  friday : Option String := none
  saturday : Option String := none
  sunday : Option String := none
deriving DecidableEq

structure RawStructItem where
  days : Option (List String) := none
  openTime : Option String := none
  closeTime : Option String := none
deriving DecidableEq

structure RawHours where
  display : Option String := none
  monday : Option String := none
  tuesday : Option String := none
  wednesday : Option String := none
  thursday : Option String := none
  friday : Option String := none
  saturday : Option String := none
  sunday : Option String := none
  structured : Option (List (Option RawStructItem)) := none
  detailed : Option RawWeekdays := none
deriving DecidableEq

structure NavItem where
  name : String
  href : String
deriving DecidableEq

structure RawFooter where
  quick_links : Option (List NavItem) := none
  quickLinks : Option (List NavItem) := none
  legal : Option (List NavItem) := none
deriving DecidableEq

structure RawNavigationCfg where
  main : Option (List NavItem) := none
  footer : Option RawFooter := none
deriving DecidableEq

structure RawGa where
  enabled : Option Bool := none
  measurement_id : Option String := none
deriving DecidableEq

structure RawGtm where
  enabled : Option Bool := none
  container_id : Option String := none
deriving DecidableEq

structure RawAnalytics where
  google_analytics : Option RawGa := none
  google_tag_manager : Option RawGtm := none
  google_site_verification : Option String := none
deriving DecidableEq

structure RawReviewPage where
  path : Option String := none
  layout : Option String := none
  position : Option String := none
  max_reviews : Option Int := none
deriving DecidableEq

structure RawReviews where
  enabled : Option Bool := none
  pages : Option (List (Option RawReviewPage)) := none
  tagged : Option (List (String × List String)) := none
deriving DecidableEq

structure RawConfig where
  site : Option RawSite := none
  business : Option RawBusiness := none
  branding : Option RawBranding := none
  trust : Option RawTrust := none
  cta : Option RawCta := none
  services : Option RawServices := none
  value_props : Option RawValueProps := none
  features : Option RawFeatures := none
  seo : Option RawSeo := none
  legal : Option RawLegal := none
  contact : Option RawContact := none
  social : Option RawSocial := none
  hours : Option RawHours := none
  navigation : Option RawNavigationCfg := none
  analytics : Option RawAnalytics := none
  reviews : Option RawReviews := none
deriving DecidableEq

-- ===========================================================================
-- Resolved configuration, mirroring the TS interfaces.
-- ===========================================================================

structure Business where
  name : String
  legalName : String
  tagline : String
  description : String
  yearFounded : Int
  industry : String
deriving DecidableEq

structure BrandingColors where
  primary : String
  primaryDark : String
  secondary : String
  accent : String
  text : String
  textLight : String
  background : String
  surface : String
deriving DecidableEq

structure BrandingFonts where
  heading : String
  body : String
deriving DecidableEq

structure Logo where
  text : String
  showIcon : Bool
deriving DecidableEq

structure Branding where
  colors : BrandingColors
  fonts : BrandingFonts
  style : String
  logo : Logo
deriving DecidableEq

structure Trust where
  showYearsInBusiness : Bool
  yearsInBusiness : Int
  customersServed : String
  satisfactionRate : String
  responseTime : String
  certifications : List String
  awards : List String
  affiliations : List String
  guarantees : List String
deriving DecidableEq

structure CtaButton where
  text : String
  url : String
deriving DecidableEq

structure CTA where
  primary : CtaButton
  secondary : CtaButton
  urgency : String
deriving DecidableEq

structure ServiceItem where
  name : String
  description : String
  icon : String
  url : String
deriving DecidableEq

structure Services where
  enabled : Bool
  headline : String
  subheadline : String
  items : List ServiceItem
deriving DecidableEq

structure ValuePropItem where
  title : String
  description : String
  icon : String
deriving DecidableEq

structure ValueProps where
  enabled : Bool
  headline : String
  items : List ValuePropItem
deriving DecidableEq

structure Features where
  blog : Bool
  contactForm : Bool
  reviews : Bool
  servicesSection : Bool
  newsletter : Bool
  chat : Bool
  booking : Bool
deriving DecidableEq

structure SEO where
  titleTemplate : String
  defaultTitle : String
  defaultDescription : String
  keywords : List String
deriving DecidableEq

structure Legal where
  copyrightHolder : String
  privacyEmail : String
  termsLastUpdated : String
  privacyLastUpdated : String
deriving DecidableEq

structure Address where
  street : String
  suite : String
  city : String
  state : String
  zip : String
  country : String
deriving DecidableEq

structure Contact where
  email : String
  phone : String
  phoneRaw : String
  phoneLocal : String
  address : Address
  serviceArea : String
deriving DecidableEq

structure Social where
  facebook : String
  instagram : String
  twitter : String
  linkedin : String
  youtube : String
  tiktok : String
  pinterest : String
  yelp : String
  googleBusiness : String
  nextdoor : String
  bbb : String
  whatsapp : String
deriving DecidableEq

structure Hours where
  display : String
  monday : String
  tuesday : String
  wednesday : String
  thursday : String
  friday : String
  saturday : String
  sunday : String
deriving DecidableEq

structure HoursStructured where
  days : List String
  openTime : String
  closeTime : String
deriving DecidableEq

structure FooterLinks where
  quickLinks : List NavItem
  legal : List NavItem
deriving DecidableEq

structure GoogleAnalytics where
  enabled : Bool
  measurementId : String
deriving DecidableEq

structure GoogleTagManager where
  enabled : Bool
  containerId : String
deriving DecidableEq

structure Analytics where
  googleAnalytics : GoogleAnalytics
  googleTagManager : GoogleTagManager
  googleSiteVerification : String
deriving DecidableEq

/-- Resolved per-page review configuration.  `path` is copied through from
the raw input without a default (`path: p.path` in the source), so it stays
optional here. -/
structure ReviewPageConfig where
  path : Option String
  layout : String
  position : String
  maxReviews : Int
deriving DecidableEq

structure ReviewsConfig where
  enabled : Bool
  pages : List ReviewPageConfig
  tagged : List (String × List String)
deriving DecidableEq

/-- A review record; `id`/`author`/… are copied through from the dataset
without defaults, only `hasPhoto` is defaulted. -/
structure Review where
  id : Option String
  author : Option String
  rating : Option Int
  date : Option String
  text : Option String
  hasPhoto : Bool
deriving DecidableEq

structure SiteConfig where
  name : String
  tagline : String
  description : String
  url : String
  contact : Contact
  social : Social
  hours : Hours
  hoursStructured : List HoursStructured
  navigation : List NavItem
  footerLinks : FooterLinks
  defaultOgImage : String
  analytics : Analytics
  reviews : ReviewsConfig
  copyright : String
  business : Business
  branding : Branding
  trust : Trust
  cta : CTA
  services : Services
  valueProps : ValueProps
  features : Features
  seo : SEO
  legal : Legal
  locale : String
  timezone : String
deriving DecidableEq

-- ===========================================================================
-- Resolver helpers (the item-level mapping callbacks of `loadConfig`).
-- ===========================================================================

/-- Callback of `config.services?.items.map` (per-field defaults). -/
def resolveServiceItem (s : RawServiceItem) : ServiceItem :=
  { name := jsOr s.name ""
    description := jsOr s.description ""
    icon := jsOr s.icon "star"
    url := jsOr s.url "" }

/-- Callback of `config.value_props?.items.map` (per-field defaults). -/
def resolveValueItem (v : RawValueItem) : ValuePropItem :=
  { title := jsOr v.title ""
    description := jsOr v.description ""
    icon := jsOr v.icon "check" }

/-- Callback of `config.hours?.structured.map`. -/
def resolveStructItem (h : RawStructItem) : HoursStructured :=
  { days := h.days.getD []
    openTime := jsOr h.openTime ""
    closeTime := jsOr h.closeTime "" }

/-- Callback of `config.reviews?.pages.map`. -/
def resolveReviewPage (p : RawReviewPage) : ReviewPageConfig :=
  { path := p.path
    layout := jsOr p.layout "standard"
    position := jsOr p.position "before-cta"
    maxReviews := jsOrInt p.max_reviews 3 }

/-- `(config.trust?.certifications || []).filter((c) => c)`: keep the truthy
(non-null, non-empty) entries, in order. -/
def keepTruthy (l : List (Option String)) : List String :=
  l.filterMap (fun c => c.bind (fun s => if s = "" then none else some s))

/-- `config.hours?.detailed || config.hours || {}` followed by the weekday
reads: the `detailed` object if present (truthy even when empty), else the
flat `hours` object itself, else the empty object. -/
def weekdaySource (h : Option RawHours) : RawWeekdays :=
  match h with
  | none => {}
  | some hh =>
    match hh.detailed with
    | some d => d
    | none =>
      { monday := hh.monday
        tuesday := hh.tuesday
        wednesday := hh.wednesday
        thursday := hh.thursday
        friday := hh.friday
        saturday := hh.saturday
        sunday := hh.sunday }

-- Raw-sequence accessors (the arrays the resolver maps over).

def rawServiceItems (config : RawConfig) : List (Option RawServiceItem) :=
  (config.services.bind RawServices.items).getD []

def rawValueItems (config : RawConfig) : List (Option RawValueItem) :=
  (config.value_props.bind RawValueProps.items).getD []

def rawStructItems (config : RawConfig) : List (Option RawStructItem) :=
  (config.hours.bind RawHours.structured).getD []

def rawReviewPages (config : RawConfig) : List (Option RawReviewPage) :=
  (config.reviews.bind RawReviews.pages).getD []

-- ===========================================================================
-- `loadConfig`, minus the file read/parse (it takes the parsed raw tree and
-- the current year).  `none` models a thrown TypeError.
-- ===========================================================================

def resolveYearFounded (currentYear : Int) (config : RawConfig) : Int :=
  jsOrInt (config.business.bind RawBusiness.year_founded) currentYear

def resolveBusiness (currentYear : Int) (config : RawConfig) : Business :=
  { name := jsOr (config.business.bind RawBusiness.name)
      (jsOr (config.site.bind RawSite.name) "Acme Corp")
    legalName := jsOr (config.business.bind RawBusiness.legal_name)
      (jsOr (config.business.bind RawBusiness.name)
        (jsOr (config.site.bind RawSite.name) "Acme Corp"))
    tagline := jsOr (config.business.bind RawBusiness.tagline)
      (jsOr (config.site.bind RawSite.tagline) "")
    description := jsOr (config.business.bind RawBusiness.description)
      (jsOr (config.site.bind RawSite.description) "")
    yearFounded := resolveYearFounded currentYear config
    industry := jsOr (config.business.bind RawBusiness.industry) "general" }

def resolveBranding (config : RawConfig) : Branding :=
  { colors :=
      { primary := jsOr ((config.branding.bind RawBranding.colors).bind RawColors.primary) "#2563eb"
        primaryDark := jsOr ((config.branding.bind RawBranding.colors).bind RawColors.primary_dark) "#1e40af"
        secondary := jsOr ((config.branding.bind RawBranding.colors).bind RawColors.secondary) "#64748b"
        accent := jsOr ((config.branding.bind RawBranding.colors).bind RawColors.accent) "#f59e0b"
        text := jsOr ((config.branding.bind RawBranding.colors).bind RawColors.text) "#1f2937"
        textLight := jsOr ((config.branding.bind RawBranding.colors).bind RawColors.text_light) "#6b7280"
        background := jsOr ((config.branding.bind RawBranding.colors).bind RawColors.background) "#ffffff"
        surface := jsOr ((config.branding.bind RawBranding.colors).bind RawColors.surface) "#f9fafb" }
    fonts :=
      { heading := jsOr ((config.branding.bind RawBranding.fonts).bind RawFonts.heading) "Inter"
        body := jsOr ((config.branding.bind RawBranding.fonts).bind RawFonts.body) "Inter" }
    style := jsOr (config.branding.bind RawBranding.style) "modern"
    logo :=
      { text := jsOr ((config.branding.bind RawBranding.logo).bind RawLogo.text) ""
        showIcon := ((config.branding.bind RawBranding.logo).bind RawLogo.show_icon).getD true } }

def resolveTrust (currentYear : Int) (config : RawConfig) : Trust :=
  { showYearsInBusiness := (config.trust.bind RawTrust.show_years_in_business).getD true
    yearsInBusiness := currentYear - resolveYearFounded currentYear config
    customersServed := jsOr (config.trust.bind RawTrust.customers_served) ""
    satisfactionRate := jsOr (config.trust.bind RawTrust.satisfaction_rate) ""
    responseTime := jsOr (config.trust.bind RawTrust.response_time) ""
    certifications := keepTruthy ((config.trust.bind RawTrust.certifications).getD [])
    awards := (config.trust.bind RawTrust.awards).getD []
    affiliations := (config.trust.bind RawTrust.affiliations).getD []
    guarantees := (config.trust.bind RawTrust.guarantees).getD [] }

def resolveCta (config : RawConfig) : CTA :=
  { primary :=
      { text := jsOr ((config.cta.bind RawCta.primary).bind RawCtaButton.text) "Get Started"
        url := jsOr ((config.cta.bind RawCta.primary).bind RawCtaButton.url) "/contact" }
    secondary :=
      { text := jsOr ((config.cta.bind RawCta.secondary).bind RawCtaButton.text) "Call Now"
        url := jsOr ((config.cta.bind RawCta.secondary).bind RawCtaButton.url)
          ("tel:" ++ jsOr (config.contact.bind RawContact.phone_raw) "") }
    urgency := jsOr (config.cta.bind RawCta.urgency) "" }

def resolveServices (config : RawConfig) (items : List ServiceItem) : Services :=
  { enabled := (config.services.bind RawServices.enabled).getD true
    headline := jsOr (config.services.bind RawServices.headline) "Our Services"
    subheadline := jsOr (config.services.bind RawServices.subheadline) ""
    items := items }

def resolveValueProps (config : RawConfig) (items : List ValuePropItem) : ValueProps :=
  { enabled := (config.value_props.bind RawValueProps.enabled).getD true
    headline := jsOr (config.value_props.bind RawValueProps.headline) "Why Choose Us"
    items := items }

def resolveFeatures (config : RawConfig) : Features :=
  { blog := (config.features.bind RawFeatures.blog).getD true
    contactForm := (config.features.bind RawFeatures.contact_form).getD true
    reviews := (config.features.bind RawFeatures.reviews).getD true
    servicesSection := (config.features.bind RawFeatures.services_section).getD true
    newsletter := (config.features.bind RawFeatures.newsletter).getD false
    chat := (config.features.bind RawFeatures.chat).getD false
    booking := (config.features.bind RawFeatures.booking).getD false }

def resolveSeo (business : Business) (config : RawConfig) : SEO :=
  { titleTemplate := jsOr (config.seo.bind RawSeo.title_template) ("%s | " ++ business.name)
    defaultTitle := jsOr (config.seo.bind RawSeo.default_title) business.name
    defaultDescription := jsOr (config.seo.bind RawSeo.default_description) business.description
    keywords := (config.seo.bind RawSeo.keywords).getD [] }

def resolveLegal (business : Business) (config : RawConfig) : Legal :=
  { copyrightHolder := jsOr (config.legal.bind RawLegal.copyright_holder) business.name
    privacyEmail := jsOr (config.legal.bind RawLegal.privacy_email)
      (jsOr (config.contact.bind RawContact.email) "")
    termsLastUpdated := jsOr (config.legal.bind RawLegal.terms_last_updated) ""
    privacyLastUpdated := jsOr (config.legal.bind RawLegal.privacy_last_updated) "" }

/-- `config.contact?.phone || config.contact?.phone_local || ''`. -/
def phoneDisplay (config : RawConfig) : String :=
  jsOr (config.contact.bind RawContact.phone)
    (jsOr (config.contact.bind RawContact.phone_local) "")

/-- `config.contact?.phone_raw || phoneDisplay.replace(/\D/g, '')`. -/
def phoneRawOf (config : RawConfig) : String :=
  jsOr (config.contact.bind RawContact.phone_raw) (stripNonDigits (phoneDisplay config))

def resolveContact (config : RawConfig) : Contact :=
  { email := jsOr (config.contact.bind RawContact.email) ""
    phone := phoneDisplay config
    phoneRaw := phoneRawOf config
    phoneLocal := phoneDisplay config
    address :=
      { street := jsOr ((config.contact.bind RawContact.address).bind RawAddress.street) ""
        suite := jsOr ((config.contact.bind RawContact.address).bind RawAddress.suite) ""
        city := jsOr ((config.contact.bind RawContact.address).bind RawAddress.city) ""
        state := jsOr ((config.contact.bind RawContact.address).bind RawAddress.state) ""
        zip := jsOr ((config.contact.bind RawContact.address).bind RawAddress.zip) ""
        country := jsOr ((config.contact.bind RawContact.address).bind RawAddress.country) "" }
    serviceArea := jsOr (config.contact.bind RawContact.service_area) "" }

def resolveSocial (config : RawConfig) : Social :=
  { facebook := jsOr (config.social.bind RawSocial.facebook) ""
    instagram := jsOr (config.social.bind RawSocial.instagram) ""
    twitter := jsOr (config.social.bind RawSocial.twitter) ""
    linkedin := jsOr (config.social.bind RawSocial.linkedin) ""
    youtube := jsOr (config.social.bind RawSocial.youtube) ""
    tiktok := jsOr (config.social.bind RawSocial.tiktok) ""
    pinterest := jsOr (config.social.bind RawSocial.pinterest) ""
    yelp := jsOr (config.social.bind RawSocial.yelp) ""
    googleBusiness := jsOr (config.social.bind RawSocial.google_business) ""
    nextdoor := jsOr (config.social.bind RawSocial.nextdoor) ""
    bbb := jsOr (config.social.bind RawSocial.bbb) ""
    whatsapp := jsOr (config.social.bind RawSocial.whatsapp) "" }

def resolveHours (config : RawConfig) : Hours :=
  { display := jsOr (config.hours.bind RawHours.display) "Mon-Fri: 9AM-5PM"
    monday := jsOr (weekdaySource config.hours).monday ""
    tuesday := jsOr (weekdaySource config.hours).tuesday ""
    wednesday := jsOr (weekdaySource config.hours).wednesday ""
    thursday := jsOr (weekdaySource config.hours).thursday ""
    friday := jsOr (weekdaySource config.hours).friday ""
    saturday := jsOr (weekdaySource config.hours).saturday ""
    sunday := jsOr (weekdaySource config.hours).sunday "" }

def resolveFooterLinks (config : RawConfig) : FooterLinks :=
  { quickLinks := (((config.navigation.bind RawNavigationCfg.footer).bind RawFooter.quick_links).orElse
      (fun _ => (config.navigation.bind RawNavigationCfg.footer).bind RawFooter.quickLinks)).getD []
    legal := ((config.navigation.bind RawNavigationCfg.footer).bind RawFooter.legal).getD [] }

def resolveAnalytics (config : RawConfig) : Analytics :=
  { googleAnalytics :=
      { enabled := ((config.analytics.bind RawAnalytics.google_analytics).bind RawGa.enabled).getD false
        measurementId := jsOr ((config.analytics.bind RawAnalytics.google_analytics).bind RawGa.measurement_id) "" }
    googleTagManager :=
      { enabled := ((config.analytics.bind RawAnalytics.google_tag_manager).bind RawGtm.enabled).getD false
        containerId := jsOr ((config.analytics.bind RawAnalytics.google_tag_manager).bind RawGtm.container_id) "" }
    googleSiteVerification := jsOr (config.analytics.bind RawAnalytics.google_site_verification) "" }

def resolveReviewsConfig (config : RawConfig) (pages : List ReviewPageConfig) : ReviewsConfig :=
  { enabled := (config.reviews.bind RawReviews.enabled).getD true
    pages := pages
    tagged := (config.reviews.bind RawReviews.tagged).getD [] }

/-- The returned object of `loadConfig`, assembled from the per-section
resolvers and the four already-mapped item lists. -/
def assembleConfig (currentYear : Int) (config : RawConfig)
    (servicesItems : List ServiceItem) (valueItems : List ValuePropItem)
    (structuredItems : List HoursStructured) (reviewPages : List ReviewPageConfig) :
    SiteConfig :=
  { name := (resolveBusiness currentYear config).name
    tagline := (resolveBusiness currentYear config).tagline
    description := (resolveBusiness currentYear config).description
    url := jsOr (config.site.bind RawSite.url) ""
    defaultOgImage := jsOr (config.site.bind RawSite.default_og_image) "/images/og-image.png"
    contact := resolveContact config
    social := resolveSocial config
    hours := resolveHours config
    hoursStructured := structuredItems
    navigation := (config.navigation.bind RawNavigationCfg.main).getD []
    footerLinks := resolveFooterLinks config
    analytics := resolveAnalytics config
    reviews := resolveReviewsConfig config reviewPages
    copyright := "© " ++ toString currentYear ++ " "
      ++ (resolveLegal (resolveBusiness currentYear config) config).copyrightHolder
      ++ ". All rights reserved."
    business := resolveBusiness currentYear config
    branding := resolveBranding config
    trust := resolveTrust currentYear config
    cta := resolveCta config
    services := resolveServices config servicesItems
    valueProps := resolveValueProps config valueItems
    features := resolveFeatures config
    seo := resolveSeo (resolveBusiness currentYear config) config
    legal := resolveLegal (resolveBusiness currentYear config) config
    locale := jsOr (config.site.bind RawSite.locale) "en-US"
    timezone := jsOr (config.site.bind RawSite.timezone) "America/New_York" }

/-- `loadConfig`, minus the file read/parse: it takes the parsed raw tree and
the current year.  `none` models a thrown TypeError (a `null` element inside
one of the four mapped sequences). -/
def loadConfig (currentYear : Int) (config : RawConfig) : Option SiteConfig :=
  (mapNonNull resolveServiceItem (rawServiceItems config)).bind (fun servicesItems =>
  (mapNonNull resolveValueItem (rawValueItems config)).bind (fun valueItems =>
  (mapNonNull resolveStructItem (rawStructItems config)).bind (fun structuredItems =>
  (mapNonNull resolveReviewPage (rawReviewPages config)).bind (fun reviewPages =>
  some (assembleConfig currentYear config servicesItems valueItems structuredItems reviewPages)))))

-- ===========================================================================
-- Reviews loader and per-page accessor.
-- ===========================================================================

structure RawReview where
  id : Option String := none
  author : Option String := none
  rating : Option Int := none
  date : Option String := none
  text : Option String := none
  hasPhoto : Option Bool := none
deriving DecidableEq

/-- The parsed shape of `data/reviews.json`. -/
structure RawReviewsData where
  reviews : Option (List (Option RawReview)) := none
deriving DecidableEq

/-- Callback of `data.reviews.map` in `loadReviews`. -/
def resolveReview (r : RawReview) : Review :=
  { id := r.id
    author := r.author
    rating := r.rating
    date := r.date
    text := r.text
    hasPhoto := r.hasPhoto.getD false }

/-- `loadReviews`: the dataset argument is `none` when the file is missing or
unparsable; the surrounding try/catch turns every failure (including a
TypeError from a `null` list entry) into an empty list. -/
def loadReviews (d : Option RawReviewsData) : List Review :=
  match d with
  | none => []
  | some dd =>
    match mapNonNull resolveReview (dd.reviews.getD []) with
    | some rs => rs
    | none => []

/-- `getReviewsForPage`, with the process-global `siteConfig` and the
freshly-read dataset made explicit arguments. -/
def getReviewsForPage (siteConfig : SiteConfig) (dataset : Option RawReviewsData)
    (pagePath : String) : List Review × Option ReviewPageConfig :=
  if siteConfig.reviews.enabled = false then ([], none)
  else
    match siteConfig.reviews.pages.find? (fun p => p.path == some pagePath) with
    | none => ([], none)
    | some pageConfig =>
      let allReviews := loadReviews dataset
      let taggedReviewIds :=
        (siteConfig.reviews.tagged.filter (fun e => e.2.contains pagePath)).map Prod.fst
      let pageReviews :=
        jsTake pageConfig.maxReviews
          (allReviews.filter (fun r =>
            match r.id with
            | some i => taggedReviewIds.contains i
            | none => false))
      (pageReviews, some pageConfig)

/-- Spec-side predicate: review `r` is tagged for `pagePath` in the
id-to-paths map `tagged`. -/
def taggedForPath (tagged : List (String × List String)) (pagePath : String) (r : Review) : Bool :=
  tagged.any (fun e => r.id == some e.1 && e.2.contains pagePath)

-- ===========================================================================
-- Spec-side helpers and concrete inputs used by the claim theorems.
-- ===========================================================================

/-- The seven resolved weekday strings, Monday through Sunday. -/
def weekdayStrings (h : Hours) : List String :=
  [h.monday, h.tuesday, h.wednesday, h.thursday, h.friday, h.saturday, h.sunday]

/-- Per-weekday defaulting of a weekday source object. -/
def resolveWeekdays (w : RawWeekdays) : List String :=
  [jsOr w.monday "", jsOr w.tuesday "", jsOr w.wednesday "", jsOr w.thursday "",
    jsOr w.friday "", jsOr w.saturday "", jsOr w.sunday ""]

/-- The weekday fields of the legacy flat `hours` object itself. -/
def flatWeekdays (h : Option RawHours) : RawWeekdays :=
  match h with
  | none => {}
  | some hh =>
    { monday := hh.monday
      tuesday := hh.tuesday
      wednesday := hh.wednesday
      thursday := hh.thursday
      friday := hh.friday
      saturday := hh.saturday
      sunday := hh.sunday }

/-- Write a `years_in_business`-shaped value into the raw trust section (the
resolver never reads this field). -/
def setRawYearsInBusiness (config : RawConfig) (v : Option Int) : RawConfig :=
  { config with trust := config.trust.map (fun t => { t with years_in_business := v }) }

def defaultSiteConfig : SiteConfig :=
  assembleConfig 0 {} [] [] [] []

/-- Run the resolver on a raw tree that is known to resolve, for building
concrete witness configurations. -/
def mkCfg (raw : RawConfig) : SiteConfig :=
  (loadConfig 2026 raw).getD defaultSiteConfig

/-- A structured input whose `reviews.pages` holds a `null` element. -/
def c1Raw : RawConfig :=
  { reviews := some { pages := some [none] } }

/-- A structured input whose `reviews.pages` holds a non-null page object
that lacks a `path`. -/
def c1PathlessRaw : RawConfig :=
  { reviews := some { pages := some [some {}] } }

/-- Display phone present, `contact.phone_raw` absent, `cta.secondary.url`
absent. -/
def c2Raw : RawConfig :=
  { contact := some { phone := some "(555) 555-0100" } }

/-- Legacy flat `hours.monday` together with a present-but-empty
`hours.detailed`. -/
def c3Raw : RawConfig :=
  { hours := some { monday := some "9AM-5PM", detailed := some {} } }

/-- A `trust.certifications` list whose single entry is the empty string. -/
def c4Raw : RawConfig :=
  { trust := some { certifications := some [some ""] } }

def c5Raw : RawConfig :=
  { business := some { year_founded := some 2000 },
    trust := some { years_in_business := some 77 } }

def c6Raw : RawConfig :=
  { contact := some { phone := some "(555) 555-0100", phone_local := some "555-0100" } }

def c7Raw : RawConfig :=
  { business := some { name := some "X" }, site := some { name := some "Y" } }

/-- Reviews disabled, yet a matching page config and tagged reviews exist. -/
def c8Raw : RawConfig :=
  { reviews := some
      { enabled := some false,
        pages := some [some { path := some "/contact", max_reviews := some 2 }],
        tagged := some [("A", ["/contact"])] } }

def c8Dataset : RawReviewsData :=
  { reviews := some [some { id := some "A", author := some "Ann" }] }

/-- Dataset {A, B, C}; tag map A,B → /contact, C → /about; `/contact` page
with `maxReviews` 1. -/
def c9Raw : RawConfig :=
  { reviews := some
      { enabled := some true,
        pages := some [some { path := some "/contact", max_reviews := some 1 }],
        tagged := some [("A", ["/contact"]), ("B", ["/contact"]), ("C", ["/about"])] } }

def c9Dataset : RawReviewsData :=
  { reviews := some
      [some { id := some "A" }, some { id := some "B" }, some { id := some "C" }] }

/-- The resolved page config of `c9Raw`'s single page entry. -/
def c9Page : ReviewPageConfig :=
  { path := some "/contact", layout := "standard", position := "before-cta", maxReviews := 1 }

def c10Raw : RawConfig :=
  { reviews := some
      { enabled := some true,
        pages := some [some { path := some "/contact" }],
        tagged := some [("A", ["/contact"])] } }

def c10Page : ReviewPageConfig :=
  { path := some "/contact", layout := "standard", position := "before-cta", maxReviews := 3 }

-- ===========================================================================
-- Supporting lemmas.
-- ===========================================================================

theorem firstNonempty_nil (d : String) : firstNonempty [] d = d := rfl

theorem firstNonempty_cons (o : Option String) (rest : List (Option String)) (d : String) :
    firstNonempty (o :: rest) d = jsOr o (firstNonempty rest d) := by
  cases o with
  | none => rfl
  | some s => by_cases hs : s = "" <;> simp [firstNonempty, jsOr, hs]

theorem mapNonNull_some (f : α → β) {l : List (Option α)} (h : allNonNull l = true) :
    ∃ ys, mapNonNull f l = some ys := by
  induction l with
  | nil => exact ⟨[], rfl⟩
  | cons o rest ih =>
    cases o with
    | none => simp [allNonNull] at h
    | some a =>
      have hrest : allNonNull rest = true := by
        simp [allNonNull] at h ⊢
        exact h
      obtain ⟨ys, hys⟩ := ih hrest
      exact ⟨f a :: ys, by simp [mapNonNull, hys]⟩

theorem mapNonNull_length (f : α → β) {l : List (Option α)} {ys : List β}
    (h : mapNonNull f l = some ys) : ys.length = l.length := by
  induction l generalizing ys with
  | nil => simp [mapNonNull] at h; simp [h.symm]
  | cons o rest ih =>
    cases o with
    | none => simp [mapNonNull] at h
    | some a =>
      simp only [mapNonNull, Option.map_eq_some'] at h
      obtain ⟨zs, hzs, rfl⟩ := h
      simp [ih hzs]

theorem mapNonNull_get (f : α → β) {l : List (Option α)} {ys : List β}
    (h : mapNonNull f l = some ys) :
    ∀ i a, l.get? i = some (some a) → ys.get? i = some (f a) := by
  induction l generalizing ys with
  | nil => intro i a hi; simp at hi
  | cons o rest ih =>
    cases o with
    | none => simp [mapNonNull] at h
    | some b =>
      simp only [mapNonNull, Option.map_eq_some'] at h
      obtain ⟨zs, hzs, rfl⟩ := h
      intro i a hi
      cases i with
      | zero => simp at hi; simp [hi]
      | succ j => simpa using ih hzs j a (by simpa using hi)

theorem jsTake_of_nonneg {n : Int} (h : 0 ≤ n) (l : List α) :
    jsTake n l = l.take n.toNat := by
  simp [jsTake, Int.not_lt.mpr h]

theorem jsTake_nil (n : Int) : jsTake n ([] : List α) = [] := by
  unfold jsTake
  split <;> simp

theorem jsTake_sublist (n : Int) (l : List α) : List.Sublist (jsTake n l) l := by
  unfold jsTake
  split
  · exact List.take_sublist _ _
  · exact List.take_sublist _ _

/-- The id list the accessor computes (`Object.entries(tagged).filter(...).map(...)`)
contains `x` exactly when some entry of `tagged` has key `x` and carries the page
path — the membership test behind the spec-side `taggedForPath`. -/
theorem contains_taggedIds (tagged : List (String × List String)) (p x : String) :
    ((tagged.filter (fun e => e.2.contains p)).map Prod.fst).contains x =
      tagged.any (fun e => x == e.1 && e.2.contains p) := by
  apply Bool.eq_iff_iff.mpr
  simp only [List.contains, List.elem_iff, List.mem_map, List.mem_filter, List.any_eq_true,
    Bool.and_eq_true, beq_iff_eq]
  constructor
  · rintro ⟨e, ⟨h1, h2⟩, h3⟩
    exact ⟨e, h1, h3.symm, h2⟩
  · rintro ⟨e, h1, h2, h3⟩
    exact ⟨e, ⟨h1, h3⟩, h2.symm⟩

/-- Pointwise form: the accessor's filter predicate agrees with `taggedForPath`. -/
theorem filterPred_eq_taggedForPath (tagged : List (String × List String)) (p : String)
    (r : Review) :
    (match r.id with
      | some i => ((tagged.filter (fun e => e.2.contains p)).map Prod.fst).contains i
      | none => false) = taggedForPath tagged p r := by
  cases hid : r.id with
  | none =>
    simp only [taggedForPath]
    induction tagged with
    | nil => rfl
    | cons e rest ih => simp [List.any_cons, hid, ← ih]
  | some i =>
    simp only [contains_taggedIds, taggedForPath, hid]
    congr 1

/-- Unpacking a successful `loadConfig` run into its four mapped item lists
and the assembled record. -/
theorem loadConfig_inv {cy : Int} {config : RawConfig} {c : SiteConfig}
    (h : loadConfig cy config = some c) :
    ∃ s v st rp,
      mapNonNull resolveServiceItem (rawServiceItems config) = some s ∧
      mapNonNull resolveValueItem (rawValueItems config) = some v ∧
      mapNonNull resolveStructItem (rawStructItems config) = some st ∧
      mapNonNull resolveReviewPage (rawReviewPages config) = some rp ∧
      c = assembleConfig cy config s v st rp := by
  unfold loadConfig at h
  obtain ⟨s, hs, h⟩ := Option.bind_eq_some.mp h
  obtain ⟨v, hv, h⟩ := Option.bind_eq_some.mp h
  obtain ⟨st, hst, h⟩ := Option.bind_eq_some.mp h
  obtain ⟨rp, hrp, h⟩ := Option.bind_eq_some.mp h
  exact ⟨s, v, st, rp, hs, hv, hst, hrp, (Option.some.inj h).symm⟩

/-- If `hours.detailed` is present (non-null), the weekday source is exactly
that object. -/
theorem weekdaySource_of_detailed {h : Option RawHours} {d : RawWeekdays}
    (hd : h.bind RawHours.detailed = some d) : weekdaySource h = d := by
  cases h with
  | none => simp at hd
  | some hh => simp at hd; simp [weekdaySource, hd]

/-- If `hours.detailed` is absent or null, the weekday source is the flat
`hours` object itself. -/
theorem weekdaySource_of_no_detailed {h : Option RawHours}
    (hd : h.bind RawHours.detailed = none) : weekdaySource h = flatWeekdays h := by
  cases h with
  | none => rfl
  | some hh => simp at hd; simp [weekdaySource, flatWeekdays, hd]

-- ===========================================================================
-- Claim theorems.
-- ===========================================================================

/-- Claim C1, counterexample: two structured inputs refute "returns normally
with every field present and type-correct".  First, `{reviews: {pages:
[null]}}` makes `loadConfig` throw — the `null` element inside
`reviews.pages` hits the page-mapping callback's dereference (modelled as
`none`).  Second, `{reviews: {pages: [{}]}}` — a non-null page object with
no `path` — resolves normally, but the resolved page config's `path` is
absent (`p.path` is copied through without a default), so not every output
field is present. -/
theorem c1_counterexample :
    loadConfig 2026 c1Raw = none ∧
    (loadConfig 2026 c1PathlessRaw).isSome = true ∧
    (loadConfig 2026 c1PathlessRaw).map (fun c => c.reviews.pages.map ReviewPageConfig.path) =
      some [none] := by
  refine ⟨rfl, rfl, rfl⟩

/-- Claim C1 (amended): for every raw input that parses as structured data
and in which every element of the four mapped sequences (`services.items`,
`value_props.items`, `hours.structured`, `reviews.pages`) is a non-null
object, `loadConfig` returns normally, each such page object yielding the
page config at the same position; every field of the result is then present
and type-correct except that a resolved page config's `path` mirrors the raw
`path` undefaulted — it is absent exactly when the raw page object has no
`path` (while the page's other fields still get their defaults). -/
theorem c1_total (cy : Int) (config : RawConfig)
    (h1 : allNonNull (rawServiceItems config) = true)
    (h2 : allNonNull (rawValueItems config) = true)
    (h3 : allNonNull (rawStructItems config) = true)
    (h4 : allNonNull (rawReviewPages config) = true) :
    (loadConfig cy config).isSome = true ∧
    (∀ p, (resolveReviewPage p).path = p.path) ∧
    (∀ c, loadConfig cy config = some c →
      ∀ i p, (rawReviewPages config).get? i = some (some p) →
        c.reviews.pages.get? i = some (resolveReviewPage p)) ∧
    resolveReviewPage {} =
      { path := none, layout := "standard", position := "before-cta", maxReviews := 3 } := by
  obtain ⟨s, hs⟩ := mapNonNull_some resolveServiceItem h1
  obtain ⟨v, hv⟩ := mapNonNull_some resolveValueItem h2
  obtain ⟨st, hst⟩ := mapNonNull_some resolveStructItem h3
  obtain ⟨rp, hrp⟩ := mapNonNull_some resolveReviewPage h4
  refine ⟨by simp [loadConfig, hs, hv, hst, hrp], fun p => rfl, ?_, rfl⟩
  intro c hc i p hi
  obtain ⟨s2, v2, st2, rp2, _, _, _, hrp2, rfl⟩ := loadConfig_inv hc
  simpa [assembleConfig, resolveReviewsConfig] using
    mapNonNull_get resolveReviewPage hrp2 i p hi

/-- Witness for C1: the pathless-page input resolves successfully, its single
page config sitting at position 0 with an absent `path` and defaulted other
fields. -/
theorem c1_total_witness :
    allNonNull (rawServiceItems c1PathlessRaw) = true ∧
    allNonNull (rawValueItems c1PathlessRaw) = true ∧
    allNonNull (rawStructItems c1PathlessRaw) = true ∧
    allNonNull (rawReviewPages c1PathlessRaw) = true ∧
    (loadConfig 2026 c1PathlessRaw).isSome = true ∧
    (rawReviewPages c1PathlessRaw).get? 0 = some (some {}) ∧
    (mkCfg c1PathlessRaw).reviews.pages.get? 0 = some (resolveReviewPage {}) ∧
    (mkCfg c1PathlessRaw).reviews.pages.map ReviewPageConfig.path = [none] :=
  ⟨rfl, rfl, rfl, rfl, (c1_total 2026 c1PathlessRaw rfl rfl rfl rfl).1, rfl,
    (c1_total 2026 c1PathlessRaw rfl rfl rfl rfl).2.2.1 (mkCfg c1PathlessRaw) rfl 0 {} rfl,
    by decide⟩

/-- Claim C2, counterexample: with display phone `"(555) 555-0100"`, no
`contact.phone_raw` and no `cta.secondary.url`, the resolved `phoneRaw` is
the digit-extraction `"5555550100"` but the resolved secondary URL is bare
`"tel:"` — not `"tel:" ++ phoneRaw` as the claim states for the
derived-phoneRaw case. -/
theorem c2_counterexample :
    (loadConfig 2026 c2Raw).map (fun c => c.cta.secondary.url) = some "tel:" ∧
    (loadConfig 2026 c2Raw).map (fun c => c.contact.phoneRaw) = some "5555550100" ∧
    ("tel:" : String) ≠ "tel:" ++ "5555550100" := by
  refine ⟨rfl, rfl, by decide⟩

/-- Claim C2 (amended): when `cta.secondary.url` is absent, the resolved
secondary URL is `"tel:"` concatenated with the *raw* `contact.phone_raw`
field (empty string when that field is absent or empty) — the resolver does
not substitute the phoneRaw value derived by digit extraction from the
display phone. -/
theorem c2_secondary_url (cy : Int) (config : RawConfig) (c : SiteConfig)
    (h : loadConfig cy config = some c)
    (habs : (config.cta.bind RawCta.secondary).bind RawCtaButton.url = none) :
    c.cta.secondary.url = "tel:" ++ jsOr (config.contact.bind RawContact.phone_raw) "" := by
  obtain ⟨s, v, st, rp, _, _, _, _, rfl⟩ := loadConfig_inv h
  simp [assembleConfig, resolveCta, habs, jsOr]

/-- Witness for C2 at `c2Raw`: secondary URL resolves to `"tel:"`. -/
theorem c2_secondary_url_witness :
    loadConfig 2026 c2Raw = some (mkCfg c2Raw) ∧
    (c2Raw.cta.bind RawCta.secondary).bind RawCtaButton.url = none ∧
    (mkCfg c2Raw).cta.secondary.url =
      "tel:" ++ jsOr (c2Raw.contact.bind RawContact.phone_raw) "" :=
  ⟨rfl, rfl, c2_secondary_url 2026 c2Raw (mkCfg c2Raw) rfl rfl⟩

/-- Claim C3, counterexample: with a flat `hours.monday` of `"9AM-5PM"` and a
present-but-empty `hours.detailed` (`{}` is truthy in JS), the resolved
`monday` is `""` taken from the empty `detailed` object — the claim's
"present but empty falls back to the flat object" branch is false. -/
theorem c3_counterexample :
    c3Raw.hours.bind RawHours.detailed = some {} ∧
    c3Raw.hours.bind RawHours.monday = some "9AM-5PM" ∧
    (loadConfig 2026 c3Raw).map (fun c => c.hours.monday) = some "" ∧
    ("" : String) ≠ "9AM-5PM" := by
  refine ⟨rfl, rfl, rfl, by decide⟩

/-- Claim C3 (amended): if `hours.detailed` is present (non-null) — even as
an empty object — the weekday strings are taken exclusively from it, with no
field-by-field merge from the flat `hours` object; only when `detailed` is
absent or null is the flat `hours` object itself the weekday source. -/
theorem c3_detailed_exclusive (cy : Int) (config : RawConfig) (c : SiteConfig)
    (h : loadConfig cy config = some c) :
    (∀ d, config.hours.bind RawHours.detailed = some d →
      weekdayStrings c.hours = resolveWeekdays d) ∧
    (config.hours.bind RawHours.detailed = none →
      weekdayStrings c.hours = resolveWeekdays (flatWeekdays config.hours)) := by
  obtain ⟨s, v, st, rp, _, _, _, _, rfl⟩ := loadConfig_inv h
  constructor
  · intro d hd
    simp [assembleConfig, resolveHours, weekdayStrings, resolveWeekdays,
      weekdaySource_of_detailed hd]
  · intro hd
    simp [assembleConfig, resolveHours, weekdayStrings, resolveWeekdays,
      weekdaySource_of_no_detailed hd]

/-- Witness for C3: a populated `detailed` object wins over flat fields. -/
theorem c3_detailed_exclusive_witness :
    loadConfig 2026 c3Raw = some (mkCfg c3Raw) ∧
    c3Raw.hours.bind RawHours.detailed = some {} ∧
    weekdayStrings (mkCfg c3Raw).hours = resolveWeekdays {} :=
  ⟨rfl, rfl, (c3_detailed_exclusive 2026 c3Raw (mkCfg c3Raw) rfl).1 {} rfl⟩

/-- Claim C4, counterexample: a `trust.certifications` input of one
empty-string entry resolves to the empty sequence — the entry is dropped by
the resolver's truthiness filter, so the output is shorter than the input,
contradicting "no item, however malformed or empty, is excluded". -/
theorem c4_counterexample :
    ((c4Raw.trust.bind RawTrust.certifications).getD []).length = 1 ∧
    (loadConfig 2026 c4Raw).map (fun c => c.trust.certifications.length) = some 0 ∧
    ¬ (loadConfig 2026 c4Raw).map (fun c => c.trust.certifications.length) =
        some ((c4Raw.trust.bind RawTrust.certifications).getD []).length := by
  refine ⟨rfl, rfl, by decide⟩

/-- Claim C4 (amended): every non-null item of `services.items` and
`value_props.items` yields exactly one output item at the same position,
with absent sub-fields defaulted per-field (`icon` → `"star"` for services,
`"check"` for value props, the other fields → empty string), and those two
output sequences have the same length as their inputs; `trust.certifications`
however is passed through a truthiness filter that keeps only its non-null,
non-empty entries (in order), so empty entries are excluded there. -/
theorem c4_items_preserved (cy : Int) (config : RawConfig) (c : SiteConfig)
    (h : loadConfig cy config = some c) :
    c.services.items.length = (rawServiceItems config).length ∧
    c.valueProps.items.length = (rawValueItems config).length ∧
    (∀ i a, (rawServiceItems config).get? i = some (some a) →
      c.services.items.get? i = some (resolveServiceItem a)) ∧
    (∀ i a, (rawValueItems config).get? i = some (some a) →
      c.valueProps.items.get? i = some (resolveValueItem a)) ∧
    c.trust.certifications = keepTruthy ((config.trust.bind RawTrust.certifications).getD []) ∧
    resolveServiceItem {} = { name := "", description := "", icon := "star", url := "" } ∧
    resolveValueItem {} = { title := "", description := "", icon := "check" } := by
  obtain ⟨s, v, st, rp, hs, hv, _, _, rfl⟩ := loadConfig_inv h
  refine ⟨?_, ?_, ?_, ?_, rfl, rfl, rfl⟩
  · simpa [assembleConfig, resolveServices] using mapNonNull_length resolveServiceItem hs
  · simpa [assembleConfig, resolveValueProps] using mapNonNull_length resolveValueItem hv
  · intro i a hi
    simpa [assembleConfig, resolveServices] using mapNonNull_get resolveServiceItem hs i a hi
  · intro i a hi
    simpa [assembleConfig, resolveValueProps] using mapNonNull_get resolveValueItem hv i a hi

/-- Witness for C4 at `c4Raw` (no services/value-props items, one empty-string
certification): the item sequences keep their input length and the
certification entry is filtered out by `keepTruthy`. -/
theorem c4_items_preserved_witness :
    loadConfig 2026 c4Raw = some (mkCfg c4Raw) ∧
    (mkCfg c4Raw).services.items.length = (rawServiceItems c4Raw).length ∧
    (mkCfg c4Raw).trust.certifications =
      keepTruthy ((c4Raw.trust.bind RawTrust.certifications).getD []) :=
  ⟨rfl, (c4_items_preserved 2026 c4Raw (mkCfg c4Raw) rfl).1,
    (c4_items_preserved 2026 c4Raw (mkCfg c4Raw) rfl).2.2.2.2.1⟩

/-- Claim C5: the resolved `trust.yearsInBusiness` is always the current year
minus the resolved `business.yearFounded`; `yearFounded` defaults to the
current year when `business.year_founded` is absent (derived value 0); and
any `years_in_business`-shaped raw field is ignored — writing one never
changes the result of resolution. -/
theorem c5_years_derived (cy : Int) (config : RawConfig) (c : SiteConfig)
    (h : loadConfig cy config = some c) :
    c.trust.yearsInBusiness = cy - c.business.yearFounded ∧
    (config.business.bind RawBusiness.year_founded = none → c.business.yearFounded = cy) ∧
    (∀ w, loadConfig cy (setRawYearsInBusiness config w) = loadConfig cy config) := by
  obtain ⟨s, v, st, rp, _, _, _, _, rfl⟩ := loadConfig_inv h
  refine ⟨rfl, ?_, ?_⟩
  · intro hy
    simp [assembleConfig, resolveBusiness, resolveYearFounded, hy, jsOrInt]
  · intro w
    rcases config with ⟨site, business, branding, trust, cta, services, value_props,
      features, seo, legal, contact, social, hours, navigation, analytics, reviews⟩
    cases trust with
    | none => rfl
    | some t =>
      rcases t with ⟨t1, t2, t3, t4, t5, t6, t7, t8, t9⟩
      rfl

/-- Witness for C5 at `c5Raw` (year founded 2000, a stray
`years_in_business: 77` in the raw input): resolved value `2026 - 2000`. -/
theorem c5_years_derived_witness :
    loadConfig 2026 c5Raw = some (mkCfg c5Raw) ∧
    (mkCfg c5Raw).trust.yearsInBusiness = 2026 - (mkCfg c5Raw).business.yearFounded ∧
    (mkCfg c5Raw).trust.yearsInBusiness = 26 :=
  ⟨rfl, (c5_years_derived 2026 c5Raw (mkCfg c5Raw) rfl).1, by decide⟩

/-- `(String.mk l).data` unfolds to `l`. -/
theorem data_mk (l : List Char) : (String.mk l).data = l := rfl

/-- Claim C6: the display phone is the first populated source among
`contact.phone` and `contact.phone_local` (else empty); `phoneRaw` is the
populated `contact.phone_raw` if any, else the digits-only extraction of the
resolved display phone; digit-extraction is idempotent; and the display phone
`"(555) 555-0100"` extracts to `"5555550100"`. -/
theorem c6_phone_chain (cy : Int) (config : RawConfig) (c : SiteConfig)
    (h : loadConfig cy config = some c) :
    c.contact.phone = firstNonempty [config.contact.bind RawContact.phone,
      config.contact.bind RawContact.phone_local] "" ∧
    c.contact.phoneRaw = firstNonempty [config.contact.bind RawContact.phone_raw]
      (stripNonDigits c.contact.phone) ∧
    (∀ s, stripNonDigits (stripNonDigits s) = stripNonDigits s) ∧
    stripNonDigits "(555) 555-0100" = "5555550100" := by
  obtain ⟨s, v, st, rp, _, _, _, _, rfl⟩ := loadConfig_inv h
  refine ⟨?_, ?_, ?_, by decide⟩
  · simp [assembleConfig, resolveContact, phoneDisplay, firstNonempty_cons, firstNonempty_nil]
  · simp [assembleConfig, resolveContact, phoneRawOf, phoneDisplay,
      firstNonempty_cons, firstNonempty_nil]
  · intro t
    simp [stripNonDigits, data_mk, List.filter_filter]

/-- Witness for C6 at `c6Raw` (display phone populated, no `phone_raw`). -/
theorem c6_phone_chain_witness :
    loadConfig 2026 c6Raw = some (mkCfg c6Raw) ∧
    (mkCfg c6Raw).contact.phone = firstNonempty [c6Raw.contact.bind RawContact.phone,
      c6Raw.contact.bind RawContact.phone_local] "" ∧
    (mkCfg c6Raw).contact.phone = "(555) 555-0100" ∧
    (mkCfg c6Raw).contact.phoneRaw = "5555550100" :=
  ⟨rfl, (c6_phone_chain 2026 c6Raw (mkCfg c6Raw) rfl).1, by decide, by decide⟩

/-- Claim C7: the resolved business name is the first populated source among
`business.name` and `site.name`, else the literal `"Acme Corp"`; the resolved
`legalName` is the populated `business.legal_name` if any, else the resolved
business name. -/
theorem c7_name_chain (cy : Int) (config : RawConfig) (c : SiteConfig)
    (h : loadConfig cy config = some c) :
    c.business.name = firstNonempty [config.business.bind RawBusiness.name,
      config.site.bind RawSite.name] "Acme Corp" ∧
    c.business.legalName =
      firstNonempty [config.business.bind RawBusiness.legal_name] c.business.name := by
  obtain ⟨s, v, st, rp, _, _, _, _, rfl⟩ := loadConfig_inv h
  constructor
  · simp [assembleConfig, resolveBusiness, firstNonempty_cons, firstNonempty_nil]
  · simp [assembleConfig, resolveBusiness, firstNonempty_cons, firstNonempty_nil]

/-- Witness for C7 at `c7Raw` (`business.name = "X"`, `site.name = "Y"`):
resolved name `"X"`. -/
theorem c7_name_chain_witness :
    loadConfig 2026 c7Raw = some (mkCfg c7Raw) ∧
    (mkCfg c7Raw).business.name = firstNonempty [c7Raw.business.bind RawBusiness.name,
      c7Raw.site.bind RawSite.name] "Acme Corp" ∧
    (mkCfg c7Raw).business.name = "X" ∧
    (mkCfg c7Raw).business.legalName = "X" :=
  ⟨rfl, (c7_name_chain 2026 c7Raw (mkCfg c7Raw) rfl).1, by decide, by decide⟩

/-- Claim C8: when the resolved `reviews.enabled` is false,
`getReviewsForPage` returns the empty review sequence and an absent page
config for every path and every dataset — before any page lookup or dataset
read. -/
theorem c8_disabled_short_circuit (cfg : SiteConfig) (ds : Option RawReviewsData) (p : String)
    (h : cfg.reviews.enabled = false) :
    getReviewsForPage cfg ds p = ([], none) := by
  simp [getReviewsForPage, h]

/-- Witness for C8 at `c8Raw`: reviews disabled, yet `/contact` has a
matching page config and a tagged review in the dataset — still
`(empty, absent)`. -/
theorem c8_disabled_short_circuit_witness :
    (mkCfg c8Raw).reviews.enabled = false ∧
    ((mkCfg c8Raw).reviews.pages.find? (fun q => q.path == some "/contact")).isSome = true ∧
    getReviewsForPage (mkCfg c8Raw) (some c8Dataset) "/contact" = ([], none) :=
  ⟨rfl, rfl, c8_disabled_short_circuit (mkCfg c8Raw) (some c8Dataset) "/contact" rfl⟩

/-- Claim C9: with reviews enabled, a matching page config (first entry whose
`path` equals the argument) yields exactly the dataset reviews tagged for the
path, in the dataset's original relative order (the result is a sublist of
the dataset), truncated to the page's `maxReviews`, paired with that page
config; no matching page config yields `(empty, absent)`. -/
theorem c9_filter_truncate (cfg : SiteConfig) (ds : Option RawReviewsData) (p : String)
    (hen : cfg.reviews.enabled = true) :
    (∀ pc, cfg.reviews.pages.find? (fun q => q.path == some p) = some pc →
      0 ≤ pc.maxReviews →
      getReviewsForPage cfg ds p =
        (((loadReviews ds).filter (taggedForPath cfg.reviews.tagged p)).take
            pc.maxReviews.toNat,
          some pc)) ∧
    (cfg.reviews.pages.find? (fun q => q.path == some p) = none →
      getReviewsForPage cfg ds p = ([], none)) ∧
    List.Sublist (getReviewsForPage cfg ds p).1 (loadReviews ds) := by
  refine ⟨?_, ?_, ?_⟩
  · intro pc hfind hnn
    have hfil : (loadReviews ds).filter (fun r =>
        match r.id with
        | some i => ((cfg.reviews.tagged.filter (fun e => e.2.contains p)).map Prod.fst).contains i
        | none => false) = (loadReviews ds).filter (taggedForPath cfg.reviews.tagged p) :=
      List.filter_congr (fun r _ => filterPred_eq_taggedForPath cfg.reviews.tagged p r)
    simp only [getReviewsForPage, hen, Bool.true_eq_false, if_false, hfind, hfil,
      jsTake_of_nonneg hnn]
  · intro hfind
    simp [getReviewsForPage, hen, hfind]
  · cases hfind : cfg.reviews.pages.find? (fun q => q.path == some p) with
    | none =>
      simp [getReviewsForPage, hen, hfind]
    | some pc =>
      simp only [getReviewsForPage, hen, Bool.true_eq_false, if_false, hfind]
      exact (jsTake_sublist _ _).trans (List.filter_sublist _)

/-- Witness for C9 on the spec's example: dataset {A, B, C}, tags A,B →
`/contact`, C → `/about`, page `/contact` with `maxReviews` 1 — the result is
review A (first of {A, B} in dataset order) with the page's config. -/
theorem c9_filter_truncate_witness :
    (mkCfg c9Raw).reviews.enabled = true ∧
    (mkCfg c9Raw).reviews.pages.find? (fun q => q.path == some "/contact") = some c9Page ∧
    (0 : Int) ≤ c9Page.maxReviews ∧
    getReviewsForPage (mkCfg c9Raw) (some c9Dataset) "/contact" =
      (((loadReviews (some c9Dataset)).filter
          (taggedForPath (mkCfg c9Raw).reviews.tagged "/contact")).take c9Page.maxReviews.toNat,
        some c9Page) ∧
    getReviewsForPage (mkCfg c9Raw) (some c9Dataset) "/contact" =
      ([{ id := some "A", author := none, rating := none, date := none, text := none,
          hasPhoto := false }], some c9Page) ∧
    getReviewsForPage (mkCfg c9Raw) (some c9Dataset) "/unknown" = ([], none) :=
  ⟨rfl, rfl, by decide,
    (c9_filter_truncate (mkCfg c9Raw) (some c9Dataset) "/contact" rfl).1 c9Page rfl (by decide),
    by decide, by decide⟩

/-- Claim C10: with reviews enabled and a matching page config, a missing or
unparsable review dataset (absorbed by `loadReviews` as the empty list) only
empties the returned review sequence — the matched page config is still
returned, for the failed read and for every dataset alike. -/
theorem c10_config_survives_read_failure (cfg : SiteConfig) (p : String)
    (pc : ReviewPageConfig) (hen : cfg.reviews.enabled = true)
    (hfind : cfg.reviews.pages.find? (fun q => q.path == some p) = some pc) :
    loadReviews none = [] ∧
    getReviewsForPage cfg none p = ([], some pc) ∧
    (∀ ds, (getReviewsForPage cfg ds p).2 = some pc) := by
  refine ⟨rfl, ?_, ?_⟩
  · simp [getReviewsForPage, hen, hfind, loadReviews, jsTake_nil]
  · intro ds
    simp [getReviewsForPage, hen, hfind]

/-- Witness for C10 at `c10Raw`: failed dataset read still returns the
`/contact` page config. -/
theorem c10_config_survives_read_failure_witness :
    (mkCfg c10Raw).reviews.enabled = true ∧
    (mkCfg c10Raw).reviews.pages.find? (fun q => q.path == some "/contact") = some c10Page ∧
    getReviewsForPage (mkCfg c10Raw) none "/contact" = ([], some c10Page) :=
  ⟨rfl, rfl,
    (c10_config_survives_read_failure (mkCfg c10Raw) "/contact" c10Page rfl rfl).2.1⟩

end Setup
